import Mathlib

/-!
Verification development for the FitAnalysis weather cache
(`src/fitanalysis/WeatherData.py`).

The development shallowly embeds the incremental weather time-series cache:
the `AEMETFitWeatherData` and `MeteocatFitWeatherData` classes with their
`compose` (backfill), `load`/`save` (persistence) and `get_daily_weather`
(query) methods.  DataFrames are embedded as lists of canonical rows and
numeric cell values as exact rationals.  Worker threads are embedded as a
sequential traversal: each worker is independent and only appends its
result to a shared list, so a batch is determined by the order in which
workers complete.  Where that completion order is observable (the
Meteocat per-variable workers of one date: the joined `time` column comes
from whichever result is appended first), the embedding takes the order
as an explicit parameter instead of fixing it.
-/

/-- A timezone-aware timestamp, stored as its local calendar fields plus the
UTC offset in whole hours (all offsets occurring in this program are whole
hours: Europe/Madrid is UTC+1 / UTC+2).  This embeds a pandas `Timestamp`
with a fixed-offset or zone-resolved tz. -/
structure DT where
  year : Nat
  month : Nat
  day : Nat
  hour : Nat
  minute : Nat
  second : Nat
  offsetH : Int
deriving Repr, DecidableEq, Inhabited

/-- The decimal digit character for `n`; values above nine are clamped,
matching no reachable use (all call sites pass `n < 10`). -/
def dChar : Nat → Char
  | 0 => '0' | 1 => '1' | 2 => '2' | 3 => '3' | 4 => '4'
  | 5 => '5' | 6 => '6' | 7 => '7' | 8 => '8' | _ => '9'

/-- Numeric value of a digit character. -/
def dVal (c : Char) : Nat := c.toNat - 48

/-- `c` is one of the ten decimal digit characters. -/
def isDigitC (c : Char) : Bool :=
  decide (c = '0' ∨ c = '1' ∨ c = '2' ∨ c = '3' ∨ c = '4' ∨ c = '5' ∨
          c = '6' ∨ c = '7' ∨ c = '8' ∨ c = '9')

/-- Two-digit zero-padded decimal rendering (as `strftime` `%m`/`%d`/`%H`
etc. produce). -/
def pad2 (n : Nat) : List Char := [dChar (n / 10), dChar (n % 10)]

/-- Four-digit zero-padded decimal rendering (`strftime` `%Y`). -/
def pad4 (n : Nat) : List Char :=
  [dChar (n / 1000), dChar (n / 100 % 10), dChar (n / 10 % 10), dChar (n % 10)]

/-- Value of two digit characters read as a decimal numeral. -/
def val2 (a b : Char) : Nat := dVal a * 10 + dVal b

/-- Value of four digit characters read as a decimal numeral. -/
def val4 (a b c d : Char) : Nat :=
  dVal a * 1000 + dVal b * 100 + dVal c * 10 + dVal d

/-- The `+HH:00` / `-HH:00` UTC-offset suffix pandas prints for a
tz-aware timestamp with a whole-hour offset. -/
def printOffset (o : Int) : List Char :=
  (if 0 ≤ o then '+' else '-') :: (pad2 o.natAbs ++ [':', '0', '0'])

/-- The string `str(Timestamp)` / `to_csv` produce for a tz-aware
timestamp: `YYYY-MM-DD HH:MM:SS+HH:00`. -/
def printDT (t : DT) : String :=
  ⟨pad4 t.year ++ '-' :: (pad2 t.month ++ '-' :: (pad2 t.day ++ ' ' ::
   (pad2 t.hour ++ ':' :: (pad2 t.minute ++ ':' ::
   (pad2 t.second ++ printOffset t.offsetH)))))⟩

/-- Embeds `pd.to_datetime` on the timestamp strings this program itself
writes (`YYYY-MM-DD HH:MM:SS±HH:00`).  The separator layout is enforced;
digit positions are read positionally (`to_datetime` is stricter on
non-digit garbage, which never arises from `printDT`). -/
def parseDT (s : String) : Option DT :=
  match s.data with
  | [y1, y2, y3, y4, '-', m1, m2, '-', d1, d2, ' ',
     h1, h2, ':', i1, i2, ':', s1, s2, sg, o1, o2, ':', '0', '0'] =>
    if sg = '+' then
      some ⟨val4 y1 y2 y3 y4, val2 m1 m2, val2 d1 d2,
            val2 h1 h2, val2 i1 i2, val2 s1 s2, (val2 o1 o2 : Int)⟩
    else if sg = '-' then
      some ⟨val4 y1 y2 y3 y4, val2 m1 m2, val2 d1 d2,
            val2 h1 h2, val2 i1 i2, val2 s1 s2, -(val2 o1 o2 : Int)⟩
    else none
  | _ => none

/-- The `YYYY-MM-DD` rendering of a calendar date (`strftime '%Y-%m-%d'`). -/
def dateStrNat (y m d : Nat) : String :=
  ⟨pad4 y ++ '-' :: (pad2 m ++ '-' :: pad2 d)⟩

/-- `strftime('%Y-%m-%d')` of a timestamp: rendering of its local calendar
date. -/
def dateStr (t : DT) : String := dateStrNat t.year t.month t.day

/-- Embeds `datetime.strptime(date, '%Y-%m-%d')`'s extraction of the
calendar fields from a `YYYY-MM-DD` string (canonical zero-padded form;
`strptime` additionally accepts unpadded fields, which this program never
produces). -/
def parseDateStr (s : String) : Option (Nat × Nat × Nat) :=
  match s.data with
  | [y1, y2, y3, y4, '-', m1, m2, '-', d1, d2] =>
    if isDigitC y1 && isDigitC y2 && isDigitC y3 && isDigitC y4 &&
       isDigitC m1 && isDigitC m2 && isDigitC d1 && isDigitC d2 then
      some (val4 y1 y2 y3 y4, val2 m1 m2, val2 d1 d2)
    else none
  | _ => none

/-- Days since 1970-01-01 of a civil date (standard era-based civil
calendar computation; used only to order timestamps the way pandas
`sort_values(by='time')` orders tz-aware timestamps, i.e. by instant). -/
def daysFromCivil (y m d : Nat) : Int :=
  let y' : Int := (y : Int) - (if m ≤ 2 then 1 else 0)
  let era : Int := (if 0 ≤ y' then y' else y' - 399) / 400
  let yoe : Int := y' - era * 400
  let mp : Int := ((m : Int) + 9) % 12
  let doy : Int := (153 * mp + 2) / 5 + (d : Int) - 1
  let doe : Int := yoe * 365 + yoe / 4 - yoe / 100 + doy
  era * 146097 + doe - 719468

/-- The instant a timestamp denotes, in seconds relative to the epoch
(local fields minus the UTC offset).  Comparison key of
`sort_values(by='time')`. -/
def DT.utcVal (t : DT) : Int :=
  ((daysFromCivil t.year t.month t.day * 24 + (t.hour : Int) - t.offsetH) * 60
    + (t.minute : Int)) * 60 + (t.second : Int)

/-- Day of week of a civil date, 0 = Sunday. -/
def dayOfWeek (y m d : Nat) : Nat :=
  ((daysFromCivil y m d + 4).emod 7).toNat

/-- Day of month of the last Sunday of a 31-day month (March and October,
the EU DST transition months). -/
def lastSunday (y m : Nat) : Nat := 31 - dayOfWeek y m 31

/-- Modelled from the spec: whether an instant at 11:00 UTC on the given
civil date falls in Europe/Madrid daylight-saving time.  The IANA tzdata
rules applied by pandas `tz_convert` (EU rule: DST from 01:00 UTC on the
last Sunday of March until 01:00 UTC on the last Sunday of October) are
not part of this repository; they are embedded here for the 11:00 UTC
instants the AEMET normalisation constructs (11:00 UTC is after the 01:00
UTC switch on both transition days). -/
def madridDST (y m d : Nat) : Bool :=
  if m < 3 || 10 < m then false
  else if 3 < m && m < 10 then true
  else if m = 3 then decide (lastSunday y 3 ≤ d)
  else decide (d < lastSunday y 10)

/-- UTC offset (hours) of Europe/Madrid at 11:00 UTC on the given date. -/
def madridOffsetH (y m d : Nat) : Nat := if madridDST y m d then 2 else 1

/-- Fuel-driven Euclidean gcd (structurally recursive so that the kernel
can evaluate it; the fuel `m + n + 1` always suffices). -/
def gcdF : Nat → Nat → Nat → Nat
  | 0, m, n => m + n
  | fuel + 1, m, n => if m = 0 then n else gcdF fuel (n % m) m

/-- Kernel-computable gcd. -/
def natGcd (m n : Nat) : Nat := gcdF (m + n + 1) m n

/-- An exact rational number in lowest terms (sign in the numerator).
Embeds the numeric cell values of the program (Python floats; exact
arithmetic is the intended reading of the averaging the program does, and
every concrete value in the claims is exactly representable).  A
dedicated structure is used instead of Mathlib's rationals so that
equality of computed values is kernel-decidable. -/
structure Frac where
  num : Int
  den : Nat
deriving Repr, DecidableEq, Inhabited

/-- Normalising constructor: `mkFrac n d` is the rational `n / d` in
lowest terms with a positive denominator (junk `⟨0, 0⟩` at `d = 0`,
never reached by the program's arithmetic). -/
def mkFrac (n d : Int) : Frac :=
  if d = 0 then ⟨0, 0⟩
  else
    let n' := if d < 0 then -n else n
    let d' := d.natAbs
    let g := natGcd n'.natAbs d'
    ⟨n' / (g : Int), d' / g⟩

instance : OfNat Frac n := ⟨⟨n, 1⟩⟩

def Frac.add (a b : Frac) : Frac :=
  mkFrac (a.num * b.den + b.num * a.den) ((a.den : Int) * b.den)

def Frac.div (a b : Frac) : Frac :=
  mkFrac (a.num * b.den) ((a.den : Int) * b.num)

def Frac.neg (a : Frac) : Frac := ⟨-a.num, a.den⟩

def Frac.ofNat (n : Nat) : Frac := ⟨n, 1⟩

/-- Sum of a list of rationals. -/
def fracSum (l : List Frac) : Frac := l.foldl Frac.add 0

instance : Add Frac := ⟨Frac.add⟩

instance : Div Frac := ⟨Frac.div⟩

instance : Neg Frac := ⟨Frac.neg⟩

/-- Character-level substring replacement, fuel-driven (structurally
recursive): embeds Python `str.replace` for a non-empty pattern. -/
def replaceSubAux (pat rep : List Char) : Nat → List Char → List Char
  | _, [] => []
  | 0, l => l
  | fuel + 1, c :: rest =>
    if pat.isPrefixOf (c :: rest) then
      rep ++ replaceSubAux pat rep fuel ((c :: rest).drop pat.length)
    else c :: replaceSubAux pat rep fuel rest

/-- Python `s.replace(pat, rep)` (non-empty `pat`). -/
def replaceStr (s pat rep : String) : String :=
  ⟨replaceSubAux pat.data rep.data s.data.length s.data⟩

/-- Python `s.endswith(suffix)`. -/
def endsWithStr (s suffix : String) : Bool := suffix.data.isSuffixOf s.data

/-- Splitting a character list at every occurrence of a separator
character: embeds Python `s.split(sep)` / `str.splitOn` for the
single-character separators this program uses. -/
def splitOnChar (sep : Char) : List Char → List (List Char)
  | [] => [[]]
  | c :: rest =>
    let r := splitOnChar sep rest
    if c = sep then [] :: r
    else
      match r with
      | [] => [[c]]
      | h :: t => (c :: h) :: t

/-- One canonical cached observation: one row of the store DataFrame
(`time`, `date`, `hour` columns plus one column per variable acronym;
a missing (NaN) cell is `none`). -/
structure Row where
  time : DT
  date : String
  hour : Nat
  vals : List (String × Option Frac)
deriving Repr, DecidableEq, Inhabited

/-- The persistent state of a weather-data instance: `_data` (the row set)
and `_dates` (the set of cached calendar dates, kept as a duplicate-free
list). -/
structure Store where
  rows : List Row
  dates : List String
deriving Repr, DecidableEq, Inhabited

/-- `set(self._data['time'].apply(lambda x: x.strftime('%Y-%m-%d')))`:
the distinct local calendar dates of the rows' timestamps. -/
def storeDates (rows : List Row) : List String :=
  (rows.map (fun r => dateStr r.time)).dedup

/-- Insertion step of the sort by timestamp. -/
def insertByTime (r : Row) : List Row → List Row
  | [] => [r]
  | x :: xs =>
    if r.time.utcVal ≤ x.time.utcVal then r :: x :: xs
    else x :: insertByTime r xs

/-- `sort_values(by='time', ascending=True)`: sorts rows by the instant of
their timestamp.  (pandas' quicksort leaves the relative order of equal
keys unspecified; this embedding uses a stable insertion sort with the
same key, which is one admissible outcome.) -/
def sortByTime (l : List Row) : List Row := l.foldr insertByTime []

/-- The merge step shared by both `compose` implementations
(`WeatherData.py` lines 375-379 and 706-710):
`self._data = pd.concat([self._data, weather_data])` followed by
`self._data.sort_values(by='time', ascending=True, inplace=True)`.
It appends the newly fetched rows and re-sorts; there is no
deduplication step. -/
def mergeIntoStore (old new : List Row) : List Row := sortByTime (old ++ new)

/-- Value of a non-empty all-digit character list as a decimal numeral. -/
def digitsVal (l : List Char) : Nat := l.foldl (fun a c => a * 10 + dVal c) 0

/-- Reads a non-empty digit string as a natural number. -/
def parseNatDigits (l : List Char) : Option Nat :=
  if l.isEmpty then none
  else if l.all isDigitC then some (digitsVal l) else none

/-- `float(t)` on an unsigned decimal numeral (digits with an optional
fractional part). -/
def pyFloatCore (l : List Char) : Option Frac :=
  match splitOnChar '.' l with
  | [a] => (parseNatDigits a).map Frac.ofNat
  | [a, b] =>
    match parseNatDigits a, parseNatDigits b with
    | some ip, some fp =>
      some (Frac.ofNat ip + Frac.ofNat fp / Frac.ofNat (10 ^ b.length))
    | _, _ => none
  | _ => none

/-- Embeds Python `float(s)` on the plain decimal numerals this program
feeds it (optional leading minus, digits, optional fractional part).
`float` additionally accepts exponents, `inf`/`nan` and surrounding
whitespace, none of which the providers' numeric cells use. -/
def pyFloat (s : String) : Option Frac :=
  match s.data with
  | '-' :: rest => (pyFloatCore rest).map (fun q => -q)
  | l => pyFloatCore l

/-- Column access `df[c]` / `c in df.columns` on a single-record frame
embedded as an association list (first matching label wins). -/
def lookupCol (c : String) : List (String × α) → Option α
  | [] => none
  | (k, v) :: rest => if k = c then some v else lookupCol c rest

/-- Column assignment `df[name] = v`: overwrites the column in place if
present, otherwise appends it as the last column. -/
def setCol (name : String) (v : α) : List (String × α) → List (String × α)
  | [] => [(name, v)]
  | (k, w) :: rest =>
    if k = name then (k, v) :: rest else (k, w) :: setCol name v rest

/-- `data = data[list(self.weather_variables.code)]`: column selection in
the given order; a missing column raises `KeyError` (which ends the worker
thread), embedded as `none`. -/
def selectCols (codes : List String) (payload : List (String × String)) :
    Option (List (String × String)) :=
  match codes with
  | [] => some []
  | c :: cs =>
    match lookupCol c payload with
    | none => none
    | some v => (selectCols cs payload).map (fun rest => (c, v) :: rest)

/-- `data = data.map(lambda x: float(x.replace(',', '.')))`: localises the
comma-decimal cells; a `float` failure raises (ending the worker thread),
embedded as `none`. -/
def localizeCols : List (String × String) → Option (List (String × Frac))
  | [] => some []
  | (c, s) :: rest =>
    match pyFloat (replaceStr s "," ".") with
    | none => none
    | some q => (localizeCols rest).map (fun r => (c, q) :: r)

/-- `dict(zip(self.weather_variables.code, self.weather_variables.acronym))`
for `AEMETFitWeatherData.weather_variables` — note the source swaps the
pressure acronyms: `presMax` is renamed to `pmin` and `presMin` to
`pmax`. -/
def aemetRenames : List (String × String) :=
  [("tmed", "T"), ("prec", "pp"), ("presMax", "pmin"), ("presMin", "pmax")]

/-- The `code` column of `AEMETFitWeatherData.weather_variables`. -/
def aemetCodes : List String := ["tmed", "prec", "presMax", "presMin"]

/-- `data.rename(columns=colnames)`: relabels matching columns, leaves the
rest unchanged. -/
def renameCols (rs : List (String × String)) (df : List (String × α)) :
    List (String × α) :=
  df.map (fun p => ((lookupCol p.1 rs).getD p.1, p.2))

/-- `average_min_max_columns` (`WeatherData.py` lines 319-326): for each
column whose name ends in `min` whose `max` partner exists, assigns the
column named by stripping `min` to the pair's average, then drops every
column ending in `min` or `max`.  Applied here to the value columns only:
the frame's other columns (`date`, `time`, `hour`) neither end in
`min`/`max` nor pair up, so the pass leaves them untouched. -/
def avgMinMax (df : List (String × Frac)) : List (String × Frac) :=
  let df2 := df.foldl (fun (acc : List (String × Frac)) p =>
    if endsWithStr p.1 "min" then
      match lookupCol (replaceStr p.1 "min" "max") acc with
      | none => acc
      | some vmax =>
        match lookupCol p.1 acc with
        | none => acc
        | some vmin =>
          setCol (replaceStr p.1 "min" "") ((vmin + vmax) / 2) acc
    else acc) df
  df2.filter (fun p => !(endsWithStr p.1 "min") && !(endsWithStr p.1 "max"))

/-- `AEMETFitWeatherData.compose.process_date` (`WeatherData.py` lines
328-355) for one date: fetch (a `ValueError` from `get_data` is caught and
the worker contributes nothing), select the configured columns, localise
the comma decimals, attach `date`, set `time` to 13:00:00+02:00 (11:00
UTC) converted to Europe/Madrid — local hour `11 + offset` on the same
date — derive `hour`, rename codes to acronyms, and average min/max column
pairs.  Any uncaught exception (missing column, `float` or `strptime`
failure) ends the worker thread and likewise contributes nothing: all
failure modes are embedded as `none`. -/
def processAemetDate (fetch : String → Option (List (String × String)))
    (date : String) : Option Row :=
  match fetch date with
  | none => none
  | some payload =>
    match selectCols aemetCodes payload with
    | none => none
    | some sel =>
      match localizeCols sel with
      | none => none
      | some nums =>
        match parseDateStr date with
        | none => none
        | some (y, m, d) =>
          let off := madridOffsetH y m d
          let t : DT := ⟨y, m, d, 11 + off, 0, 0, (off : Int)⟩
          let cols := avgMinMax (renameCols aemetRenames nums)
          some { time := t, date := date, hour := 11 + off,
                 vals := cols.map (fun p => (p.1, some p.2)) }

/-- Modelled from the spec: the `BackfillReport` of §4.4 ("counts of dates
fully filled, partially filled, and fully failed, plus the list of
individual errors").  No such type exists in the source; it is stated here
so that theorems can speak about what `compose` does (not) return. -/
structure BackfillReport where
  fullyFilled : Nat
  partlyFilled : Nat
  fullyFailed : Nat
  errors : List String
deriving Repr, DecidableEq

/-- An exception propagating out of a method to its caller. -/
inductive PyError where
  | keyError
  | valueError
deriving Repr, DecidableEq

/-- One row of the persisted csv file: the `time` cell is the printed
timestamp string; `date` and `hour` cells round-trip as written; value
cells are kept as exact numbers (pandas' default csv float formatting
round-trips float64 exactly, so the lossy-prone step is the timestamp
column, which is genuinely string-serialised here). -/
structure CsvRow where
  time : String
  date : String
  hour : Nat
  vals : List (String × Option Frac)
deriving Repr, DecidableEq

/-- `save` (`WeatherData.py` lines 280-294 / 617-631):
`self._data.to_csv(filename, index=False)` — serialises the full current
row set in order, timestamps printed as `str(Timestamp)`. -/
def saveStore (s : Store) : List CsvRow :=
  s.rows.map (fun r => ⟨printDT r.time, r.date, r.hour, r.vals⟩)

/-- `load` (`WeatherData.py` lines 257-278 / 594-615) applied to an
existing file: `pd.read_csv` then
`self._data['time'] = pd.to_datetime(self._data['time'])` over the whole
column, then `self._data['time'].dt.tz_convert(...)` (whose result the
source discards, so the parsed offsets are kept as read), then `_dates`
is recomputed from the `time` column.  Failure paths, embedded as
`none`: a timestamp `to_datetime` cannot parse raises; and when the
saved timestamps do not all share one UTC offset (a store spanning both
DST regimes saves mixed `+01:00`/`+02:00` strings), `to_datetime` on the
column yields object dtype (pandas >= 2.1, the version floor set by
`DataFrame.map` at line 340) and the `.dt` accessor on line 277/614
raises. -/
def loadCsv (csv : List CsvRow) : Option Store :=
  match csv.mapM (fun c => (parseDT c.time).map
    (fun t => ({ time := t, date := c.date, hour := c.hour,
                 vals := c.vals } : Row))) with
  | none => none
  | some rows =>
    if (rows.map (fun r => r.time.offsetH)).dedup.length ≤ 1 then
      some ⟨rows, storeDates rows⟩
    else none

/-- The `if not self._dates: self.load()` prologue of both `compose`
implementations: with no file on disk `load` returns `None` and the state
is unchanged; an existing file replaces `_data`/`_dates`; an unparsable
file raises to the caller. -/
def loadStep (disk : Option (List CsvRow)) (store : Store) :
    Except PyError Store :=
  match disk with
  | none => .ok store
  | some csv =>
    match loadCsv csv with
    | some s => .ok s
    | none => .error .valueError

/-- `list(set(dates) - set(self._dates))` of both `compose`
implementations: the requested dates not yet cached (duplicate requests
collapsed; the order among missing dates is arbitrary in Python and taken
here as first-occurrence order). -/
def missingDates (dates0 : List String) (cached : List String) : List String :=
  dates0.dedup.filter (fun d => decide (d ∉ cached))

/-- Outcome of one `compose` call: the state of the object afterwards, the
number of network fetches the call issued (one `get_data` call per worker
thread — model instrumentation, counted whether or not the call later
raises), the value the Python function returns, and the exception
propagated to the caller, if any. -/
structure ComposeResult where
  store : Store
  fetches : Nat
  ret : Option BackfillReport
  err : Option PyError
deriving Repr, DecidableEq

/-- `AEMETFitWeatherData.compose` (`WeatherData.py` lines 296-381), with
`save` elided (it writes `saveStore` of the resulting store to disk and
does not affect the in-memory outcome).  Steps: load the cache if `_dates`
is empty; `dates = list(set(dates) - set(self._dates))`; return
immediately when nothing is missing; spawn one worker per missing date
(embedded sequentially in spawn order) and collect the successful frames;
`weather_data[new_order]` raises `KeyError` when every worker failed
(the empty frame has no columns); otherwise concatenate onto `_data`,
sort by time and recompute `_dates`.  The function returns `None` on
every path. -/
def aemetCompose (fetch : String → Option (List (String × String)))
    (disk : Option (List CsvRow)) (store : Store) (dates0 : List String) :
    ComposeResult :=
  match (if store.dates.isEmpty then loadStep disk store else .ok store) with
  | .error e => ⟨store, 0, none, some e⟩
  | .ok st =>
    let missing := missingDates dates0 st.dates
    if missing.isEmpty then ⟨st, 0, none, none⟩
    else
      let results := missing.filterMap (processAemetDate fetch)
      if results.isEmpty then ⟨st, missing.length, none, some .keyError⟩
      else
        let merged := mergeIntoStore st.rows results
        ⟨⟨merged, storeDates merged⟩, missing.length, none, none⟩

/-- One entry of the `lectures` array of a Meteocat per-variable response:
a reading with its timestamp, value, validation state (`estat`, where
`'V'` marks a validated reading) and time base.  The timestamp is kept
structured (the source parses the string with `pd.to_datetime`; the
`tz_convert` result on the next line is discarded). -/
structure Lecture where
  data : DT
  valor : Frac
  estat : String
  baseHoraria : String
deriving Repr, DecidableEq, Inhabited

/-- `code`/`acronym` columns of `MeteocatFitWeatherData.weather_variables`. -/
def meteocatCodes : List (Nat × String) :=
  [(32, "T"), (33, "RH"), (34, "p"), (35, "pp")]

/-- Mean of the values of a group of readings
(`.agg({acronym: 'mean'})`). -/
def hourMean (grp : List Lecture) : Frac :=
  fracSum (grp.map (fun l => l.valor)) / Frac.ofNat grp.length

/-- Insertion step of the ascending sort of group keys. -/
def insertNat (n : Nat) : List Nat → List Nat
  | [] => [n]
  | x :: xs => if n ≤ x then n :: x :: xs else x :: insertNat n xs

/-- Ascending insertion sort on naturals (`groupby` sorts its keys). -/
def sortNats (l : List Nat) : List Nat := l.foldr insertNat []

/-- `data.groupby('hour').agg({'time': 'first', acronym: 'mean'})`: for
each distinct hour (ascending), the first reading's timestamp and the mean
of the values. -/
def groupByHour (ls : List Lecture) : List (Nat × DT × Frac) :=
  (sortNats ((ls.map (fun l => l.data.hour)).dedup)).map (fun h =>
    let grp := ls.filter (fun l => l.data.hour == h)
    (h, ((grp.head?.map (fun l => l.data)).getD default), hourMean grp))

/-- `MeteocatFitWeatherData.compose.process_date_code` (`WeatherData.py`
lines 656-677) for one (date, variable) worker: look the acronym up in
the variable table (`.iloc[0]` on an empty selection raises, ending the
worker), fetch (a `ValueError` from `get_data` is caught, the worker
contributes nothing), keep only readings with `estat == 'V'`, then
summarise by hour.  When no reading survives the filter,
`json_normalize([])` yields a frame with no columns and the subsequent
`drop(columns=['estat','baseHoraria'])` raises `KeyError`, ending the
worker thread: also no contribution (`none`). -/
def processMeteocatVar (fetch : String → Nat → Option (List Lecture))
    (date : String) (code : Nat) :
    Option (String × List (Nat × DT × Frac)) :=
  match meteocatCodes.find? (fun p => p.1 == code) with
  | none => none
  | some ca =>
    match fetch date code with
    | none => none
    | some lects =>
      let v := lects.filter (fun l => l.estat == "V")
      if v.isEmpty then none
      else some (ca.2, groupByHour v)

/-- One row of the per-date frame `day_df`: the `hour` column (0-23), the
`time` column (absent hours of the joined variable leave `NaT`, embedded
as `none`) and one value column per successfully fetched variable. -/
structure HourRow where
  hour : Nat
  time : Option DT
  vals : List (String × Option Frac)
deriving Repr, DecidableEq, Inhabited

/-- The join loop over one date's collected results
(`day_df = pd.DataFrame({'hour': range(0,24)})` followed by
`day_df.join(res, on=['hour'], how='left', rsuffix='_tmp')` per result,
dropping `_tmp` columns): the `time` column comes from the first joined
result only (later results' `time` gets the `_tmp` suffix and is
dropped); each result contributes its value column, `NaN` at hours it
lacks. -/
def buildDay (results : List (String × List (Nat × DT × Frac))) :
    List HourRow :=
  (List.range 24).map (fun h =>
    { hour := h
      time := results.head?.bind (fun pr =>
        (pr.2.find? (fun e => e.1 == h)).map (fun e => e.2.1))
      vals := results.map (fun pr =>
        (pr.1, (pr.2.find? (fun e => e.1 == h)).map (fun e => e.2.2))) })

/-- `MeteocatFitWeatherData.compose` (`WeatherData.py` lines 633-712),
`save` elided as for `aemetCompose`.  Steps: load the cache if `_dates`
is empty; drop already-cached dates; return immediately when nothing is
missing; per missing date spawn one worker per variable code (4 codes,
hence 4 network fetches per missing date), collect the workers' results
— the source appends them to the shared `results` list in thread
COMPLETION order, a nondeterministic permutation of the spawn order
`meteocatCodes`, and that order is observable (the joined `time` column
comes from whichever result is first), so the embedding takes it as the
parameter `sched`: the variable codes of one date's workers in the order
they complete — then join the results into a 24-hour frame; concatenate
the day frames (pandas unions their columns, missing cells `NaN`);
derive the `date` column via `strftime` on the `time` column — when any
row's `time` is missing (`NaT`, or the column absent because every
worker of every date failed) this raises, propagating to the caller;
then concatenate onto `_data`, sort by time, recompute `_dates`.
Returns `None` on every path. -/
def meteocatCompose (fetch : String → Nat → Option (List Lecture))
    (sched : String → List Nat) (disk : Option (List CsvRow))
    (store : Store) (dates0 : List String) : ComposeResult :=
  match (if store.dates.isEmpty then loadStep disk store else .ok store) with
  | .error e => ⟨store, 0, none, some e⟩
  | .ok st =>
    let missing := missingDates dates0 st.dates
    if missing.isEmpty then ⟨st, 0, none, none⟩
    else
      let perDate := missing.map (fun date =>
        (sched date).filterMap (processMeteocatVar fetch date))
      let allCols :=
        (perDate.map (fun rs => rs.map (fun pr => pr.1))).flatten.dedup
      let hourRows := (perDate.map buildDay).flatten
      match hourRows.mapM (fun hr => hr.time.map (fun t =>
        ({ time := t, date := dateStr t, hour := hr.hour,
           vals := allCols.map (fun c =>
             (c, (lookupCol c hr.vals).join)) } : Row))) with
      | none =>
        ⟨st, missing.length * meteocatCodes.length, none, some .valueError⟩
      | some newRows =>
        let merged := mergeIntoStore st.rows newRows
        ⟨⟨merged, storeDates merged⟩,
          missing.length * meteocatCodes.length, none, none⟩

/-- Python truthiness of an optional integer argument (`if startHour:`):
`None` and `0` are falsy. -/
def truthy : Option Int → Bool
  | none => false
  | some n => n != 0

/-- Outcome of one `get_daily_weather` call: object state afterwards, the
exception propagated from `compose` if any, and the returned rows. -/
structure QueryResult where
  store : Store
  err : Option PyError
  rows : List Row
deriving Repr, DecidableEq

/-- `MeteocatFitWeatherData.get_daily_weather` (`WeatherData.py` lines
714-740): default `dates` to today when the argument is falsy, `compose`
the requested dates (its exception, if any, propagates), select the rows
whose `date` column is in `dates`, then apply the hour filters — each
bound is tested for truthiness (`if startHour:` / `if endHour:`) before
its `query` filter is applied, so a `0` or `None` bound disables that
side.  The optional `fun` aggregation argument (a groupby-apply) is not
modelled; every claim concerns calls without it. -/
def getDailyWeather (fetch : String → Nat → Option (List Lecture))
    (sched : String → List Nat) (disk : Option (List CsvRow))
    (store : Store) (dates0 : List String) (today : String)
    (startHour endHour : Option Int) : QueryResult :=
  let dates := if dates0.isEmpty then [today] else dates0
  let c := meteocatCompose fetch sched disk store dates
  match c.err with
  | some e => ⟨c.store, some e, []⟩
  | none =>
    let df := c.store.rows.filter (fun r => decide (r.date ∈ dates))
    let df := if truthy startHour then
        df.filter (fun r => decide (startHour.getD 0 ≤ (r.hour : Int)))
      else df
    let df := if truthy endHour then
        df.filter (fun r => decide ((r.hour : Int) ≤ endHour.getD 0))
      else df
    ⟨c.store, none, df⟩

/-- Field bounds under which a timestamp's printed form parses back
(four-digit year, two-digit remaining fields); every timestamp this
program constructs satisfies them. -/
def DT.bounded (t : DT) : Prop :=
  t.year < 10000 ∧ t.month < 100 ∧ t.day < 100 ∧ t.hour < 100 ∧
  t.minute < 100 ∧ t.second < 100 ∧ t.offsetH.natAbs < 100

instance (t : DT) : Decidable t.bounded := by
  unfold DT.bounded; infer_instance

/-- `_dates` agrees with the dates derivable from `_data` (established by
`load` and re-established by every merge). -/
def Store.datesConsistent (s : Store) : Prop := s.dates = storeDates s.rows

instance (s : Store) : Decidable s.datesConsistent := by
  unfold Store.datesConsistent; infer_instance

/-- At most one row per (date, hour): the store's (date, hour) keys are
pairwise distinct. -/
def Store.keysNodup (s : Store) : Prop :=
  (s.rows.map (fun r => (r.date, r.hour))).Nodup

instance (s : Store) : Decidable s.keysNodup := by
  unfold Store.keysNodup; infer_instance

/-- Every row's `date` column agrees with its timestamp's local calendar
date (true of every row either provider produces). -/
def Store.dateMatchesTime (s : Store) : Prop :=
  ∀ r ∈ s.rows, r.date = dateStr r.time

instance (s : Store) : Decidable s.dateMatchesTime := by
  unfold Store.dateMatchesTime; infer_instance

/-! Concrete fixtures for counterexamples and witnesses. -/

/-- Two rows sharing the (date, hour) key with different values. -/
def rowDupA : Row :=
  ⟨⟨2022, 1, 1, 12, 0, 0, 1⟩, "2022-01-01", 12, [("T", some 10)]⟩

/-- Second row with the same (date, hour) key as `rowDupA`. -/
def rowDupB : Row :=
  ⟨⟨2022, 1, 1, 12, 0, 0, 1⟩, "2022-01-01", 12, [("T", some 20)]⟩

/-- A typical AEMET daily payload (comma-decimal cells, the four
configured codes). -/
def aemetPayloadStd : List (String × String) :=
  [("tmed", "10,0"), ("prec", "0,0"), ("presMax", "1000,5"), ("presMin", "990,5")]

/-- A fetcher for which every request succeeds with the standard payload. -/
def fetchAemetOk : String → Option (List (String × String)) :=
  fun _ => some aemetPayloadStd

/-- A fetcher for which every request fails. -/
def fetchAemetFail : String → Option (List (String × String)) := fun _ => none

/-- A fetcher failing for 2022-01-01 and succeeding for 2022-01-02. -/
def fetchAemetHalf : String → Option (List (String × String)) :=
  fun d => if d = "2022-01-02" then some aemetPayloadStd else none

/-- An AEMET raw payload that carries a daily-mean temperature of 30 next
to (ignored) temperature min/max fields of 10 and 20. -/
def aemetPayloadTminmax : List (String × String) :=
  [("tmin", "10,0"), ("tmax", "20,0"), ("tmed", "30,0"), ("prec", "0,0"),
   ("presMax", "1000,0"), ("presMin", "990,0")]

/-- Fetcher returning `aemetPayloadTminmax` for every date. -/
def fetchAemetTminmax : String → Option (List (String × String)) :=
  fun _ => some aemetPayloadTminmax

/-- A consistent one-row store caching 2022-01-01. -/
def storeJan1 : Store := ⟨[rowDupA], ["2022-01-01"]⟩

/-- Meteocat temperature readings (code 32) for 2022-01-01: one validated
reading per hour (value = the hour), except hour 14, which has two
validated sub-hour readings of 10 and 20 plus an unvalidated reading of
100. -/
def lecturesT : List Lecture :=
  (List.range 24).flatMap (fun h =>
    if h = 14 then
      [⟨⟨2022, 1, 1, 14, 0, 0, 1⟩, 10, "V", "SH"⟩,
       ⟨⟨2022, 1, 1, 14, 30, 0, 1⟩, 20, "V", "SH"⟩,
       ⟨⟨2022, 1, 1, 14, 45, 0, 1⟩, 100, "X", "SH"⟩]
    else [⟨⟨2022, 1, 1, h, 0, 0, 1⟩, Frac.ofNat h, "V", "SH"⟩])

/-- Meteocat relative-humidity readings (code 33) for 2022-01-01: a
validated reading of 50 at every hour except 14, where the only reading
is unvalidated. -/
def lecturesRH : List Lecture :=
  (List.range 24).map (fun h =>
    if h = 14 then ⟨⟨2022, 1, 1, 14, 10, 0, 1⟩, 99, "X", "SH"⟩
    else ⟨⟨2022, 1, 1, h, 0, 0, 1⟩, 50, "V", "SH"⟩)

/-- Meteocat fetcher for the 2022-01-01 scenario: temperature and
humidity requests succeed, pressure and precipitation requests fail. -/
def fetchMeteocatC8 : String → Nat → Option (List Lecture) := fun d c =>
  if d = "2022-01-01" then
    if c = 32 then some lecturesT
    else if c = 33 then some lecturesRH
    else none
  else none

/-- A Meteocat fetcher for which every request fails. -/
def fetchMeteocatFail : String → Nat → Option (List Lecture) := fun _ _ => none

/-- A store caching 2022-01-01 with one row per hour 0-23 (temperature =
the hour). -/
def storeHours : Store :=
  let rows := (List.range 24).map (fun h =>
    ({ time := ⟨2022, 1, 1, h, 0, 0, 1⟩, date := "2022-01-01", hour := h,
       vals := [("T", some (Frac.ofNat h))] } : Row))
  ⟨rows, ["2022-01-01"]⟩

/-- The row `process_date` produces for 2022-01-02 from
`aemetPayloadStd` (January: UTC+1, local hour 12; pressure = the average
995.5). -/
def rowAemetJan2 : Row :=
  ⟨⟨2022, 1, 2, 12, 0, 0, 1⟩, "2022-01-02", 12,
   [("T", some ⟨10, 1⟩), ("pp", some ⟨0, 1⟩), ("p", some ⟨1991, 2⟩)]⟩

/-- A completion order equal to the spawn order: the temperature worker
(code 32) finishes first. -/
def schedSpawn : String → List Nat := fun _ => [32, 33, 34, 35]

/-- A completion order in which the humidity worker (code 33) — whose
result has a gap at hour 14 — finishes first. -/
def schedGapFirst : String → List Nat := fun _ => [33, 32, 34, 35]

/-- A two-row store spanning both DST regimes: its timestamps carry the
mixed offsets +01:00 (winter) and +02:00 (summer). -/
def storeMixed : Store :=
  ⟨[⟨⟨2022, 1, 12, 12, 0, 0, 1⟩, "2022-01-12", 12, [("T", some ⟨5, 1⟩)]⟩,
    ⟨⟨2022, 7, 1, 13, 0, 0, 2⟩, "2022-07-01", 13, [("T", some ⟨25, 1⟩)]⟩],
   ["2022-01-12", "2022-07-01"]⟩

/-! Helper lemmas. -/

theorem dVal_dChar : ∀ k, k < 10 → dVal (dChar k) = k := by decide

theorem dChar_dVal {c : Char} (h : isDigitC c = true) : dChar (dVal c) = c := by
  have h' := of_decide_eq_true h
  rcases h' with h' | h' | h' | h' | h' | h' | h' | h' | h' | h' <;>
    subst h' <;> decide

theorem dVal_lt_ten {c : Char} (h : isDigitC c = true) : dVal c < 10 := by
  have h' := of_decide_eq_true h
  rcases h' with h' | h' | h' | h' | h' | h' | h' | h' | h' | h' <;>
    subst h' <;> decide

theorem val2_pad2 {n : Nat} (h : n < 100) :
    val2 (dChar (n / 10)) (dChar (n % 10)) = n := by
  unfold val2
  rw [dVal_dChar _ (by omega), dVal_dChar _ (by omega)]
  omega

theorem val4_pad4 {n : Nat} (h : n < 10000) :
    val4 (dChar (n / 1000)) (dChar (n / 100 % 10)) (dChar (n / 10 % 10))
      (dChar (n % 10)) = n := by
  unfold val4
  rw [dVal_dChar _ (by omega), dVal_dChar _ (by omega),
      dVal_dChar _ (by omega), dVal_dChar _ (by omega)]
  omega

theorem pad2_val2 {a b : Char} (ha : isDigitC a = true)
    (hb : isDigitC b = true) : pad2 (val2 a b) = [a, b] := by
  have ha' := dVal_lt_ten ha
  have hb' := dVal_lt_ten hb
  unfold pad2 val2
  have h1 : (dVal a * 10 + dVal b) / 10 = dVal a := by omega
  have h2 : (dVal a * 10 + dVal b) % 10 = dVal b := by omega
  rw [h1, h2, dChar_dVal ha, dChar_dVal hb]

theorem pad4_val4 {a b c d : Char} (ha : isDigitC a = true)
    (hb : isDigitC b = true) (hc : isDigitC c = true)
    (hd : isDigitC d = true) : pad4 (val4 a b c d) = [a, b, c, d] := by
  have ha' := dVal_lt_ten ha
  have hb' := dVal_lt_ten hb
  have hc' := dVal_lt_ten hc
  have hd' := dVal_lt_ten hd
  unfold pad4 val4
  have h1 : (dVal a * 1000 + dVal b * 100 + dVal c * 10 + dVal d) / 1000
      = dVal a := by omega
  have h2 : (dVal a * 1000 + dVal b * 100 + dVal c * 10 + dVal d) / 100 % 10
      = dVal b := by omega
  have h3 : (dVal a * 1000 + dVal b * 100 + dVal c * 10 + dVal d) / 10 % 10
      = dVal c := by omega
  have h4 : (dVal a * 1000 + dVal b * 100 + dVal c * 10 + dVal d) % 10
      = dVal d := by omega
  rw [h1, h2, h3, h4, dChar_dVal ha, dChar_dVal hb, dChar_dVal hc,
      dChar_dVal hd]

/-- A date string accepted by `strptime` renders back to itself under
`strftime('%Y-%m-%d')`. -/
theorem dateStrNat_parseDateStr {s : String} {y m d : Nat}
    (h : parseDateStr s = some (y, m, d)) : dateStrNat y m d = s := by
  obtain ⟨l⟩ := s
  unfold parseDateStr at h
  split at h
  case h_2 => exact absurd h (by simp)
  case h_1 y1 y2 y3 y4 m1 m2 d1 d2 heq =>
    split at h
    case isFalse => exact absurd h (by simp)
    case isTrue hdig =>
      simp only [Bool.and_eq_true] at hdig
      obtain ⟨⟨⟨⟨⟨⟨⟨hy1, hy2⟩, hy3⟩, hy4⟩, hm1⟩, hm2⟩, hd1⟩, hd2⟩ := hdig
      injection h with h
      injection h with h1 h
      injection h with h2 h3
      subst h1 h2 h3
      subst heq
      unfold dateStrNat
      rw [pad4_val4 hy1 hy2 hy3 hy4, pad2_val2 hm1 hm2, pad2_val2 hd1 hd2]
      rfl

/-- The timestamp string `save` writes parses back to the identical
timestamp under `load`'s `to_datetime`. -/
theorem parseDT_printDT {t : DT} (h : t.bounded) :
    parseDT (printDT t) = some t := by
  obtain ⟨y, m, d, hh, mi, ss, o⟩ := t
  obtain ⟨h1, h2, h3, h4, h5, h6, h7⟩ := h
  simp only [DT.bounded] at *
  unfold printDT parseDT printOffset pad4 pad2
  by_cases ho : (0 : Int) ≤ o
  · rw [if_pos ho]
    simp only [List.cons_append, List.nil_append, if_true, Option.some.injEq,
      DT.mk.injEq]
    refine ⟨val4_pad4 h1, val2_pad2 h2, val2_pad2 h3, val2_pad2 h4,
      val2_pad2 h5, val2_pad2 h6, ?_⟩
    rw [val2_pad2 h7]
    omega
  · rw [if_neg ho]
    simp only [List.cons_append, List.nil_append, if_true]
    rw [if_neg (show ('-' : Char) ≠ '+' by decide)]
    simp only [Option.some.injEq, DT.mk.injEq]
    refine ⟨val4_pad4 h1, val2_pad2 h2, val2_pad2 h3, val2_pad2 h4,
      val2_pad2 h5, val2_pad2 h6, ?_⟩
    rw [val2_pad2 h7]
    omega

theorem insertByTime_perm (r : Row) (l : List Row) :
    (insertByTime r l).Perm (r :: l) := by
  induction l with
  | nil => exact .refl _
  | cons x xs ih =>
    unfold insertByTime
    split
    · exact .refl _
    · exact .trans (.cons x ih) (.swap r x xs)

theorem sortByTime_perm (l : List Row) : (sortByTime l).Perm l := by
  induction l with
  | nil => exact .refl _
  | cons x xs ih =>
    unfold sortByTime at *
    exact .trans (insertByTime_perm x (List.foldr insertByTime [] xs))
      (.cons x ih)

theorem mergeIntoStore_perm (old new : List Row) :
    (mergeIntoStore old new).Perm (old ++ new) := sortByTime_perm _

theorem mem_storeDates {rows : List Row} {a : String} :
    a ∈ storeDates rows ↔ ∃ r ∈ rows, dateStr r.time = a := by
  simp [storeDates, List.mem_dedup]

/-- Inversion of a successful `process_date` worker: the date parsed, and
the produced row carries the requested date, the 11:00 UTC timestamp
converted to Europe/Madrid and the corresponding local hour. -/
theorem processAemetDate_spec {fetch : String → Option (List (String × String))}
    {date : String} {r : Row} (h : processAemetDate fetch date = some r) :
    ∃ y m d, parseDateStr date = some (y, m, d) ∧
      r.time = ⟨y, m, d, 11 + madridOffsetH y m d, 0, 0,
        (madridOffsetH y m d : Int)⟩ ∧
      r.date = date ∧ r.hour = 11 + madridOffsetH y m d := by
  unfold processAemetDate at h
  split at h
  · exact absurd h (by simp)
  split at h
  · exact absurd h (by simp)
  split at h
  · exact absurd h (by simp)
  split at h
  · exact absurd h (by simp)
  next y m d heq =>
    injection h with h
    subst h
    exact ⟨y, m, d, heq, rfl, rfl, rfl⟩

/-- A successful worker's row renders its timestamp back to the requested
date string. -/
theorem processAemetDate_dateStr {fetch : String → Option (List (String × String))}
    {date : String} {r : Row} (h : processAemetDate fetch date = some r) :
    dateStr r.time = date := by
  obtain ⟨y, m, d, hp, ht, _, _⟩ := processAemetDate_spec h
  rw [ht]
  exact dateStrNat_parseDateStr hp

theorem processAemetDate_date {fetch : String → Option (List (String × String))}
    {date : String} {r : Row} (h : processAemetDate fetch date = some r) :
    r.date = date :=
  (processAemetDate_spec h).choose_spec.choose_spec.choose_spec.2.2.1

/-- Workers for pairwise-distinct dates produce rows with pairwise
distinct `date` columns. -/
theorem nodup_dates_filterMap (fetch : String → Option (List (String × String)))
    {l : List String} (hl : l.Nodup) :
    ((l.filterMap (processAemetDate fetch)).map (fun r => r.date)).Nodup := by
  induction l with
  | nil => simp
  | cons d ds ih =>
    have hd : d ∉ ds := (List.nodup_cons.1 hl).1
    have hnd : ds.Nodup := (List.nodup_cons.1 hl).2
    simp only [List.filterMap_cons]
    cases hf : processAemetDate fetch d with
    | none => exact ih hnd
    | some r =>
      simp only [List.map_cons, List.nodup_cons]
      refine ⟨?_, ih hnd⟩
      intro hmem
      obtain ⟨q, hq, he⟩ := List.mem_map.1 hmem
      obtain ⟨d2, hd2, hq2⟩ := List.mem_filterMap.1 hq
      rw [processAemetDate_date hq2] at he
      rw [processAemetDate_date hf] at he
      exact hd (he ▸ hd2)

/-- The load prologue is the identity when there is no file on disk. -/
theorem loadNoDisk (store : Store) :
    (if store.dates.isEmpty then loadStep none store else .ok store)
      = .ok store := by
  unfold loadStep; split <;> rfl

/-- Membership in the missing-date set computed by `compose`. -/
theorem mem_missing {dates0 : List String} {cached : List String} {d : String} :
    d ∈ missingDates dates0 cached ↔ d ∈ dates0 ∧ d ∉ cached := by
  simp [missingDates, List.mem_filter, List.mem_dedup]

/-- The missing-date set is duplicate-free. -/
theorem nodup_missing (dates0 : List String) (cached : List String) :
    (missingDates dates0 cached).Nodup :=
  (List.nodup_dedup dates0).filter _

/-- `aemetCompose` with no file on disk, nothing missing: early return,
state unchanged, zero fetches. -/
theorem aemetCompose_noop {fetch : String → Option (List (String × String))}
    {store : Store} {dates0 : List String}
    (h : (missingDates dates0 store.dates).isEmpty = true) :
    aemetCompose fetch none store dates0 = ⟨store, 0, none, none⟩ := by
  unfold aemetCompose
  rw [loadNoDisk]
  dsimp only
  rw [if_pos h]

/-- `aemetCompose` with no file on disk, some dates missing but every
worker failed: `weather_data[new_order]` raises `KeyError`, the state is
unchanged, one fetch per missing date was already issued. -/
theorem aemetCompose_allFail {fetch : String → Option (List (String × String))}
    {store : Store} {dates0 : List String}
    (h : (missingDates dates0 store.dates).isEmpty = false)
    (h2 : ((missingDates dates0 store.dates).filterMap
      (processAemetDate fetch)).isEmpty = true) :
    aemetCompose fetch none store dates0
      = ⟨store, (missingDates dates0 store.dates).length, none,
          some .keyError⟩ := by
  unfold aemetCompose
  rw [loadNoDisk]
  dsimp only
  rw [if_neg (by rw [h]; exact Bool.false_ne_true), if_pos h2]

/-- `aemetCompose` with no file on disk, some dates missing and at least
one worker succeeding: merge, re-sort, recompute `_dates`. -/
theorem aemetCompose_merge {fetch : String → Option (List (String × String))}
    {store : Store} {dates0 : List String}
    (h : (missingDates dates0 store.dates).isEmpty = false)
    (h2 : ((missingDates dates0 store.dates).filterMap
      (processAemetDate fetch)).isEmpty = false) :
    aemetCompose fetch none store dates0
      = ⟨⟨mergeIntoStore store.rows ((missingDates dates0 store.dates).filterMap
            (processAemetDate fetch)),
          storeDates (mergeIntoStore store.rows
            ((missingDates dates0 store.dates).filterMap
              (processAemetDate fetch)))⟩,
          (missingDates dates0 store.dates).length, none, none⟩ := by
  unfold aemetCompose
  rw [loadNoDisk]
  dsimp only
  rw [if_neg (by rw [h]; exact Bool.false_ne_true),
      if_neg (by rw [h2]; exact Bool.false_ne_true)]

/-! Claim C1. -/

/-- C1, counterexample.  The claim states that the merge step of `compose`
removes exact duplicate (date, hour) rows so that merging two rows with
identical (date, hour) leaves exactly one row, the later-merged winning.
On the code's merge step (`pd.concat` + `sort_values`, embedded as
`mergeIntoStore`) merging `rowDupB` into a store holding `rowDupA` — both
keyed (2022-01-01, 12) — leaves TWO rows with that key: no deduplication
happens. -/
theorem C1_merge_keeps_duplicate_keys :
    ((mergeIntoStore [rowDupA] [rowDupB]).filter
      (fun r => decide (r.date = "2022-01-01" ∧ r.hour = 12))).length = 2 ∧
    ((mergeIntoStore [rowDupA] [rowDupB]).filter
      (fun r => decide (r.date = "2022-01-01" ∧ r.hour = 12))).length ≠ 1 := by
  constructor
  · decide
  · decide

/-- C1, amended.  The merge step appends the newly fetched rows and
re-sorts by timestamp without any deduplication (merging two rows with an
identical (date, hour) key leaves both, as the counterexample shows); the
store nevertheless keeps at most one row per (date, hour) because
`compose` only fetches dates absent from `cachedDates`: for a store whose
keys are pairwise distinct, whose `_dates` agrees with its rows and whose
rows' `date` column agrees with their timestamps, any `compose` call (no
file on disk) preserves pairwise-distinct (date, hour) keys. -/
theorem C1_compose_skip_cached_preserves_unique_keys
    (fetch : String → Option (List (String × String))) (store : Store)
    (dates0 : List String) (h1 : store.keysNodup)
    (h2 : store.datesConsistent) (h3 : store.dateMatchesTime) :
    (aemetCompose fetch none store dates0).store.keysNodup := by
  by_cases hm : (missingDates dates0 store.dates).isEmpty
  · rw [aemetCompose_noop hm]
    exact h1
  · have hm' : (missingDates dates0 store.dates).isEmpty = false :=
      Bool.not_eq_true _ ▸ hm
    by_cases hr : ((missingDates dates0 store.dates).filterMap
        (processAemetDate fetch)).isEmpty
    · rw [aemetCompose_allFail hm' hr]
      exact h1
    · have hr' : ((missingDates dates0 store.dates).filterMap
          (processAemetDate fetch)).isEmpty = false :=
        Bool.not_eq_true _ ▸ hr
      rw [aemetCompose_merge hm' hr']
      unfold Store.keysNodup
      have hperm := (mergeIntoStore_perm store.rows
        ((missingDates dates0 store.dates).filterMap
          (processAemetDate fetch))).map (fun r => (r.date, r.hour))
      rw [List.Perm.nodup_iff hperm, List.map_append, List.nodup_append]
      refine ⟨h1, ?_, ?_⟩
      · have hnd := nodup_dates_filterMap fetch
          (nodup_missing dates0 store.dates)
        have hmm : (((missingDates dates0 store.dates).filterMap
              (processAemetDate fetch)).map
                (fun r => (r.date, r.hour))).map Prod.fst
            = ((missingDates dates0 store.dates).filterMap
                (processAemetDate fetch)).map (fun r => r.date) := by
          simp [List.map_map]
        exact List.Nodup.of_map Prod.fst (hmm ▸ hnd)
      · intro k hk1 hk2
        obtain ⟨r, hr1, he1⟩ := List.mem_map.1 hk1
        obtain ⟨q, hq1, he2⟩ := List.mem_map.1 hk2
        obtain ⟨d2, hd2, hq2⟩ := List.mem_filterMap.1 hq1
        have hrd : r.date = q.date := by
          rw [← he2] at he1
          exact congrArg Prod.fst he1
        have hqd : q.date = d2 := processAemetDate_date hq2
        have hd2m : d2 ∉ store.dates := (mem_missing.1 hd2).2
        have hrm : r.date ∈ store.dates := by
          rw [h2]
          exact mem_storeDates.2 ⟨r, hr1, (h3 r hr1).symm⟩
        exact hd2m (hqd ▸ hrd ▸ hrm)

/-- C1, witness for the amended theorem at a concrete input. -/
theorem C1_compose_skip_cached_preserves_unique_keys_witness :
    storeJan1.keysNodup ∧ storeJan1.datesConsistent ∧
    storeJan1.dateMatchesTime ∧
    (aemetCompose fetchAemetOk none storeJan1 ["2022-01-02"]).store.keysNodup :=
  ⟨by decide, by decide, by decide,
    C1_compose_skip_cached_preserves_unique_keys fetchAemetOk storeJan1
      ["2022-01-02"] (by decide) (by decide) (by decide)⟩

/-! Claim C2. -/

/-- C2, counterexample.  The claim states that for every date set `D`,
`compose(D)` followed by `compose(D)` issues zero network fetches on the
second call.  With `D = ["2022-01-01"]` against an empty store and a
fetcher whose request for that date fails, the date is not cached by the
first call (which also raises `KeyError` at `weather_data[new_order]`),
so the second call issues one fetch, not zero. -/
theorem C2_failed_date_refetched :
    (aemetCompose fetchAemetFail none
      (aemetCompose fetchAemetFail none ⟨[], []⟩ ["2022-01-01"]).store
      ["2022-01-01"]).fetches = 1 ∧
    (aemetCompose fetchAemetFail none
      (aemetCompose fetchAemetFail none ⟨[], []⟩ ["2022-01-01"]).store
      ["2022-01-01"]).fetches ≠ 0 := by
  constructor
  · decide
  · decide

/-- C2, amended.  Backfill is idempotent for dates whose fetch pipeline
succeeds: if the store's `_dates` agrees with its rows and every requested
date's worker succeeds, then a second `compose` with the same date set
issues zero network fetches — the missing set (requested minus cached) is
empty and the call returns immediately.  (A date whose fetch fails is not
cached and is fetched again, as the counterexample shows.) -/
theorem C2_second_compose_zero_fetches
    (fetch : String → Option (List (String × String))) (store : Store)
    (dates0 : List String) (h1 : store.datesConsistent)
    (h2 : ∀ d ∈ dates0, (processAemetDate fetch d).isSome) :
    (aemetCompose fetch none
      (aemetCompose fetch none store dates0).store dates0).fetches = 0 := by
  by_cases hm : (missingDates dates0 store.dates).isEmpty
  · rw [aemetCompose_noop hm, aemetCompose_noop hm]
  · have hm' : (missingDates dates0 store.dates).isEmpty = false :=
      Bool.not_eq_true _ ▸ hm
    have hr' : ((missingDates dates0 store.dates).filterMap
        (processAemetDate fetch)).isEmpty = false := by
      obtain ⟨d, hd⟩ : ∃ d, d ∈ missingDates dates0 store.dates := by
        cases hmm : missingDates dates0 store.dates with
        | nil => rw [hmm] at hm'; exact absurd hm' (by simp)
        | cons a l => exact ⟨a, hmm ▸ List.mem_cons_self a l⟩
      obtain ⟨r, hrr⟩ :=
        Option.isSome_iff_exists.1 (h2 d (mem_missing.1 hd).1)
      have hmem : r ∈ (missingDates dates0 store.dates).filterMap
          (processAemetDate fetch) :=
        List.mem_filterMap.2 ⟨d, hd, hrr⟩
      cases hres : (missingDates dates0 store.dates).filterMap
          (processAemetDate fetch) with
      | nil => rw [hres] at hmem; exact absurd hmem (by simp)
      | cons a l => rfl
    rw [aemetCompose_merge hm' hr']
    have hsub : ∀ d ∈ dates0, d ∈ storeDates (mergeIntoStore store.rows
        ((missingDates dates0 store.dates).filterMap
          (processAemetDate fetch))) := by
      intro d hd
      have hperm := mergeIntoStore_perm store.rows
        ((missingDates dates0 store.dates).filterMap (processAemetDate fetch))
      rw [mem_storeDates]
      by_cases hc : d ∈ store.dates
      · rw [h1] at hc
        obtain ⟨r, hra, hrb⟩ := mem_storeDates.1 hc
        exact ⟨r, hperm.mem_iff.2 (List.mem_append_left _ hra), hrb⟩
      · have hdm : d ∈ missingDates dates0 store.dates :=
          mem_missing.2 ⟨hd, hc⟩
        obtain ⟨r, hrr⟩ := Option.isSome_iff_exists.1 (h2 d hd)
        exact ⟨r, hperm.mem_iff.2 (List.mem_append_right _
          (List.mem_filterMap.2 ⟨d, hdm, hrr⟩)),
          processAemetDate_dateStr hrr⟩
    have hm2 : (missingDates dates0 (storeDates (mergeIntoStore store.rows
        ((missingDates dates0 store.dates).filterMap
          (processAemetDate fetch))))).isEmpty = true := by
      rw [List.isEmpty_iff]
      unfold missingDates
      rw [List.filter_eq_nil_iff]
      intro a ha
      simp only [decide_eq_true_eq, Decidable.not_not]
      exact hsub a (List.mem_dedup.1 ha)
    rw [aemetCompose_noop hm2]

/-- C2, witness for the amended theorem at a concrete input. -/
theorem C2_second_compose_zero_fetches_witness :
    (Store.mk [] []).datesConsistent ∧
    (∀ d ∈ ["2022-01-01"], (processAemetDate fetchAemetOk d).isSome) ∧
    (aemetCompose fetchAemetOk none
      (aemetCompose fetchAemetOk none ⟨[], []⟩ ["2022-01-01"]).store
      ["2022-01-01"]).fetches = 0 :=
  ⟨by decide, by decide,
    C2_second_compose_zero_fetches fetchAemetOk ⟨[], []⟩ ["2022-01-01"]
      (by decide) (by decide)⟩

/-! Claim C3. -/

/-- C3, confirmed.  A single fetch task's failure is isolated: requesting
`[d1, d2]` against an empty store where `d1`'s fetch fails (the caught
`ValueError`, or any exception that ends the worker thread, is embedded
as `none`) and `d2`'s worker succeeds with row `r`, the call raises
nothing to the caller, leaves exactly `d2`'s row in the store, and no row
of date `d1` is present; the sibling worker was not cancelled and the
batch not aborted. -/
theorem C3_single_failure_isolated
    (fetch : String → Option (List (String × String))) (d1 d2 : String)
    (r : Row) (hne : d1 ≠ d2) (hf1 : fetch d1 = none)
    (hf2 : processAemetDate fetch d2 = some r) :
    (aemetCompose fetch none ⟨[], []⟩ [d1, d2]).err = none ∧
    (aemetCompose fetch none ⟨[], []⟩ [d1, d2]).store.rows = [r] ∧
    r.date = d2 ∧
    ∀ q ∈ (aemetCompose fetch none ⟨[], []⟩ [d1, d2]).store.rows,
      q.date ≠ d1 := by
  have hp1 : processAemetDate fetch d1 = none := by
    unfold processAemetDate
    rw [hf1]
  have hmiss : missingDates [d1, d2] (Store.mk [] []).dates = [d1, d2] := by
    unfold missingDates
    rw [List.dedup_cons_of_not_mem (by simp [hne]),
        List.dedup_cons_of_not_mem (by simp), List.dedup_nil]
    simp
  have hres : (missingDates [d1, d2] (Store.mk [] []).dates).filterMap
      (processAemetDate fetch) = [r] := by
    rw [hmiss]
    simp [List.filterMap_cons, hp1, hf2]
  have hm' : (missingDates [d1, d2] (Store.mk [] []).dates).isEmpty
      = false := by rw [hmiss]; rfl
  have hr' : ((missingDates [d1, d2] (Store.mk [] []).dates).filterMap
      (processAemetDate fetch)).isEmpty = false := by rw [hres]; rfl
  have hcomp := aemetCompose_merge hm' hr'
  rw [hres] at hcomp
  have hmerge : mergeIntoStore (Store.mk [] []).rows [r] = [r] := rfl
  rw [hmerge] at hcomp
  rw [hcomp]
  refine ⟨rfl, rfl, processAemetDate_date hf2, ?_⟩
  intro q hq
  have : q = r := by
    simpa using hq
  rw [this, processAemetDate_date hf2]
  exact fun h => hne h.symm

/-- C3, witness at a concrete input. -/
theorem C3_single_failure_isolated_witness :
    ("2022-01-01" ≠ "2022-01-02") ∧
    fetchAemetHalf "2022-01-01" = none ∧
    processAemetDate fetchAemetHalf "2022-01-02" = some rowAemetJan2 ∧
    ((aemetCompose fetchAemetHalf none ⟨[], []⟩
        ["2022-01-01", "2022-01-02"]).err = none ∧
      (aemetCompose fetchAemetHalf none ⟨[], []⟩
        ["2022-01-01", "2022-01-02"]).store.rows = [rowAemetJan2] ∧
      rowAemetJan2.date = "2022-01-02" ∧
      ∀ q ∈ (aemetCompose fetchAemetHalf none ⟨[], []⟩
        ["2022-01-01", "2022-01-02"]).store.rows, q.date ≠ "2022-01-01") :=
  ⟨by decide, by decide, by decide,
    C3_single_failure_isolated fetchAemetHalf "2022-01-01" "2022-01-02"
      rowAemetJan2 (by decide) (by decide) (by decide)⟩

/-! Claim C4. -/

/-- C4, counterexample.  The claim states `compose` returns a
`BackfillReport` with fill counts and the error list.  A successful
concrete call returns `None` (`ret = none` at type `Option
BackfillReport`): the function returns no report on any path. -/
theorem C4_compose_returns_no_report :
    (aemetCompose fetchAemetOk none ⟨[], []⟩ ["2022-01-01"]).ret = none ∧
    (aemetCompose fetchAemetOk none ⟨[], []⟩ ["2022-01-01"]).err = none := by
  constructor
  · decide
  · decide

/-- C4, amended.  `compose` (both providers) returns `None` on every
path: no `BackfillReport` — no counts of fully/partially/fully-failed
dates and no error list — is produced; outcomes are observable only
through the updated store, the saved file and log messages. -/
theorem C4_compose_returns_none
    (fetchA : String → Option (List (String × String)))
    (diskA : Option (List CsvRow)) (storeA : Store) (datesA : List String)
    (fetchM : String → Nat → Option (List Lecture))
    (schedM : String → List Nat) (diskM : Option (List CsvRow))
    (storeM : Store) (datesM : List String) :
    (aemetCompose fetchA diskA storeA datesA).ret = none ∧
    (meteocatCompose fetchM schedM diskM storeM datesM).ret = none := by
  constructor
  · unfold aemetCompose
    split
    · rfl
    · dsimp only
      repeat' split
      all_goals rfl
  · unfold meteocatCompose
    split
    · rfl
    · dsimp only
      repeat' split
      all_goals rfl

/-- `meteocatCompose` with no file on disk, nothing missing: early
return, state unchanged, zero fetches. -/
theorem meteocatCompose_noop {fetch : String → Nat → Option (List Lecture)}
    {sched : String → List Nat} {store : Store} {dates0 : List String}
    (h : (missingDates dates0 store.dates).isEmpty = true) :
    meteocatCompose fetch sched none store dates0
      = ⟨store, 0, none, none⟩ := by
  unfold meteocatCompose
  rw [loadNoDisk]
  dsimp only
  rw [if_pos h]

/-! Claim C5. -/

/-- C5, counterexample.  The claim states a query with `startHour >
endHour` fails with an `InvalidRange` error rather than returning rows.
Against a store caching 24 hourly rows for 2022-01-01, the call with
`startHour = 5, endHour = 3` raises nothing and returns normally with an
empty row list: no `InvalidRange` check exists in the code. -/
theorem C5_inverted_range_returns_empty :
    (getDailyWeather fetchMeteocatFail schedSpawn none storeHours
      ["2022-01-01"] "2022-01-01" (some 5) (some 3)).err = none ∧
    (getDailyWeather fetchMeteocatFail schedSpawn none storeHours
      ["2022-01-01"] "2022-01-01" (some 5) (some 3)).rows = [] := by
  constructor
  · decide
  · decide

/-- C5, amended.  `get_daily_weather` never checks the hour range: an
inverted range returns an empty result instead of an `InvalidRange`
error (counterexample); when both bounds are truthy (nonzero) with
`start ≤ end` and the requested dates are cached (so `compose` is a
no-op), the call returns normally and keeps exactly the date-selected
rows with `start ≤ hour ≤ end`. -/
theorem C5_truthy_hour_bounds_filter
    (fetch : String → Nat → Option (List Lecture))
    (sched : String → List Nat) (store : Store)
    (dates0 : List String) (today : String) (s e : Int)
    (hd : dates0 ≠ []) (hsub : ∀ d ∈ dates0, d ∈ store.dates)
    (hs : s ≠ 0) (he : e ≠ 0) (hse : s ≤ e) :
    (getDailyWeather fetch sched none store dates0 today
      (some s) (some e)).err = none ∧
    (getDailyWeather fetch sched none store dates0 today
      (some s) (some e)).store = store ∧
    (getDailyWeather fetch sched none store dates0 today
      (some s) (some e)).rows
      = store.rows.filter (fun r =>
          (decide (r.date ∈ dates0) && decide (s ≤ (r.hour : Int))) &&
            decide ((r.hour : Int) ≤ e)) := by
  have hde : dates0.isEmpty = false := by
    cases dates0 with
    | nil => exact absurd rfl hd
    | cons a l => rfl
  have hm : (missingDates dates0 store.dates).isEmpty = true := by
    rw [List.isEmpty_iff]
    unfold missingDates
    rw [List.filter_eq_nil_iff]
    intro a ha
    simp only [decide_eq_true_eq, Decidable.not_not]
    exact hsub a (List.mem_dedup.1 ha)
  have hts : truthy (some s) = true := by
    simp only [truthy, bne_iff_ne, ne_eq]
    exact hs
  have hte : truthy (some e) = true := by
    simp only [truthy, bne_iff_ne, ne_eq]
    exact he
  unfold getDailyWeather
  rw [hde]
  simp only [Bool.false_eq_true, if_false]
  rw [meteocatCompose_noop hm]
  dsimp only
  rw [hts, hte]
  simp only [if_true, Option.getD_some]
  refine ⟨trivial, trivial, ?_⟩
  rw [List.filter_filter, List.filter_filter]
  congr 1
  funext r
  ac_rfl

/-- C5, witness for the amended theorem at a concrete input. -/
theorem C5_truthy_hour_bounds_filter_witness :
    (["2022-01-01"] ≠ ([] : List String)) ∧
    (∀ d ∈ ["2022-01-01"], d ∈ storeHours.dates) ∧
    ((2 : Int) ≠ 0) ∧ ((3 : Int) ≠ 0) ∧ ((2 : Int) ≤ 3) ∧
    ((getDailyWeather fetchMeteocatFail schedSpawn none storeHours
        ["2022-01-01"] "2022-01-01" (some 2) (some 3)).err = none ∧
      (getDailyWeather fetchMeteocatFail schedSpawn none storeHours
        ["2022-01-01"] "2022-01-01" (some 2) (some 3)).store = storeHours ∧
      (getDailyWeather fetchMeteocatFail schedSpawn none storeHours
        ["2022-01-01"] "2022-01-01" (some 2) (some 3)).rows
        = storeHours.rows.filter (fun r =>
            (decide (r.date ∈ ["2022-01-01"]) &&
              decide ((2 : Int) ≤ (r.hour : Int))) &&
              decide ((r.hour : Int) ≤ (3 : Int)))) :=
  ⟨by decide, by decide, by decide, by decide, by decide,
    C5_truthy_hour_bounds_filter fetchMeteocatFail schedSpawn storeHours
      ["2022-01-01"] "2022-01-01" 2 3 (by decide) (by decide) (by decide)
      (by decide) (by decide)⟩

/-! Claim C6. -/

/-- C6, counterexample.  The claim states every date merged by the daily
provider yields a row whose hour equals one fixed configured
representative hour, the same for every date.  The code pins the
observation to 13:00:00+02:00 and converts it to Europe/Madrid, whose
UTC offset depends on the date: 2022-01-12 (winter, UTC+1) yields hour
12 while 2022-07-01 (summer, UTC+2) yields hour 13 — two different hours
in the same store, and no configured hour exists. -/
theorem C6_representative_hour_varies_with_dst :
    ((processAemetDate fetchAemetOk "2022-01-12").map (fun r => r.hour)
      = some 12) ∧
    ((processAemetDate fetchAemetOk "2022-07-01").map (fun r => r.hour)
      = some 13) ∧ (12 : Nat) ≠ 13 := by
  refine ⟨?_, ?_, ?_⟩ <;> decide

/-- C6, amended.  Every date the daily provider merges yields exactly one
row (a successful worker returns a single row) whose timestamp is the
fixed instant 11:00 UTC (13:00:00+02:00) of that date and whose `hour`
field is that instant's local hour in Europe/Madrid: 13 when the date
falls in DST and 12 otherwise — a fixed instant, not a fixed hour. -/
theorem C6_hour_is_local_hour_of_fixed_instant
    (fetch : String → Option (List (String × String))) (date : String)
    (y m d : Nat) (r : Row) (hp : parseDateStr date = some (y, m, d))
    (h : processAemetDate fetch date = some r) :
    r.hour = 11 + madridOffsetH y m d ∧
    r.time.hour = r.hour ∧
    (madridDST y m d = true → r.hour = 13) ∧
    (madridDST y m d = false → r.hour = 12) := by
  obtain ⟨y', m', d', hp', ht, hdate, hh⟩ := processAemetDate_spec h
  rw [hp] at hp'
  injection hp' with hp'
  injection hp' with h1 hp'
  injection hp' with h2 h3
  subst h1 h2 h3
  refine ⟨hh, by rw [ht, hh], ?_, ?_⟩
  · intro hdst
    rw [hh]
    unfold madridOffsetH
    rw [hdst]
    rfl
  · intro hdst
    rw [hh]
    unfold madridOffsetH
    rw [hdst]
    rfl

/-- C6, witness for the amended theorem at a concrete input. -/
theorem C6_hour_is_local_hour_of_fixed_instant_witness :
    parseDateStr "2022-01-02" = some (2022, 1, 2) ∧
    processAemetDate fetchAemetHalf "2022-01-02" = some rowAemetJan2 ∧
    (rowAemetJan2.hour = 11 + madridOffsetH 2022 1 2 ∧
      rowAemetJan2.time.hour = rowAemetJan2.hour ∧
      (madridDST 2022 1 2 = true → rowAemetJan2.hour = 13) ∧
      (madridDST 2022 1 2 = false → rowAemetJan2.hour = 12)) :=
  ⟨by decide, by decide,
    C6_hour_is_local_hour_of_fixed_instant fetchAemetHalf "2022-01-02"
      2022 1 2 rowAemetJan2 (by decide) (by decide)⟩

/-! Claim C7. -/

/-- C7, counterexample.  The claim's scenario says a payload with
temperature min 10 and max 20 yields one row with `T = 15.0`.  The AEMET
provider has no temperature min/max pair: its configured codes are
`tmed` (daily mean), `prec`, `presMax`, `presMin`, so `T` is taken
directly from `tmed` and any `tmin`/`tmax` fields are dropped by the
column selection.  With a payload carrying tmin 10, tmax 20 and tmed 30,
the produced row has `T = 30`, not `15`. -/
theorem C7_temperature_not_min_max_average :
    lookupCol "tmin" aemetPayloadTminmax = some "10,0" ∧
    lookupCol "tmax" aemetPayloadTminmax = some "20,0" ∧
    ((processAemetDate fetchAemetTminmax "2022-01-01").bind
      (fun r => lookupCol "T" r.vals) = some (some ⟨30, 1⟩)) ∧
    ((processAemetDate fetchAemetTminmax "2022-01-01").bind
      (fun r => lookupCol "T" r.vals) ≠ some (some ⟨15, 1⟩)) := by
  refine ⟨?_, ?_, ?_, ?_⟩ <;> decide

/-- C7, amended.  `average_min_max_columns` replaces each paired min/max
column by the pair's arithmetic mean under the stripped name and drops
the min/max columns: for the one such pair of this provider (pressure),
a payload with the four configured codes yields one row with
`p = (presMax + presMin) / 2` and no `pmin`/`pmax` columns, while `T` is
the `tmed` value unchanged (temperature has no min/max pair; a
temperature-min/max scenario with `T = 15` is impossible, see the
counterexample). -/
theorem C7_pressure_pair_averaged
    (fetch : String → Option (List (String × String))) (date : String)
    (s1 s2 s3 s4 : String) (tv pv bv av : Frac) (y m d : Nat)
    (hf : fetch date = some
      [("tmed", s1), ("prec", s2), ("presMax", s3), ("presMin", s4)])
    (h1 : pyFloat (replaceStr s1 "," ".") = some tv)
    (h2 : pyFloat (replaceStr s2 "," ".") = some pv)
    (h3 : pyFloat (replaceStr s3 "," ".") = some bv)
    (h4 : pyFloat (replaceStr s4 "," ".") = some av)
    (hd : parseDateStr date = some (y, m, d)) :
    ∃ r, processAemetDate fetch date = some r ∧
      r.vals = [("T", some tv), ("pp", some pv),
                ("p", some ((bv + av) / 2))] := by
  have hloc : localizeCols
      [("tmed", s1), ("prec", s2), ("presMax", s3), ("presMin", s4)]
      = some [("tmed", tv), ("prec", pv), ("presMax", bv), ("presMin", av)] := by
    simp only [localizeCols, h1, h2, h3, h4]
    rfl
  refine ⟨⟨⟨y, m, d, 11 + madridOffsetH y m d, 0, 0,
      (madridOffsetH y m d : Int)⟩, date, 11 + madridOffsetH y m d,
      [("T", some tv), ("pp", some pv), ("p", some ((bv + av) / 2))]⟩,
    ?_, rfl⟩
  have hsel : selectCols aemetCodes
      [("tmed", s1), ("prec", s2), ("presMax", s3), ("presMin", s4)]
      = some [("tmed", s1), ("prec", s2), ("presMax", s3), ("presMin", s4)] :=
    rfl
  unfold processAemetDate
  rw [hf]
  dsimp only
  rw [hsel]
  dsimp only
  rw [hloc]
  dsimp only
  rw [hd]
  rfl

/-- C7, witness for the amended theorem at a concrete input. -/
theorem C7_pressure_pair_averaged_witness :
    fetchAemetOk "2022-01-01" = some
      [("tmed", "10,0"), ("prec", "0,0"), ("presMax", "1000,5"),
       ("presMin", "990,5")] ∧
    pyFloat (replaceStr "10,0" "," ".") = some ⟨10, 1⟩ ∧
    pyFloat (replaceStr "0,0" "," ".") = some ⟨0, 1⟩ ∧
    pyFloat (replaceStr "1000,5" "," ".") = some ⟨2001, 2⟩ ∧
    pyFloat (replaceStr "990,5" "," ".") = some ⟨1981, 2⟩ ∧
    parseDateStr "2022-01-01" = some (2022, 1, 1) ∧
    ∃ r, processAemetDate fetchAemetOk "2022-01-01" = some r ∧
      r.vals = [("T", some ⟨10, 1⟩), ("pp", some ⟨0, 1⟩),
        ("p", some (((⟨2001, 2⟩ : Frac) + ⟨1981, 2⟩) / 2))] :=
  ⟨by decide, by decide, by decide, by decide, by decide, by decide,
    C7_pressure_pair_averaged fetchAemetOk "2022-01-01" "10,0" "0,0"
      "1000,5" "990,5" ⟨10, 1⟩ ⟨0, 1⟩ ⟨2001, 2⟩ ⟨1981, 2⟩ 2022 1 1
      (by decide) (by decide) (by decide) (by decide) (by decide)
      (by decide)⟩

/-! Claim C8. -/

/-- C8, counterexample.  The claim's no-fail outcome is
schedule-dependent, not a program property: the per-variable workers
append their results in thread completion order, and the joined `time`
column comes from whichever result is first.  Under the completion order
in which the humidity worker finishes first, its result has no validated
reading at hour 14, the `time` column is `NaT` there, and the
`strftime` deriving the `date` column (line 702) raises — the whole
`compose` call fails and nothing is merged, instead of the claimed
merged row with `T` set and `RH` null. -/
theorem C8_gap_result_first_crashes :
    (meteocatCompose fetchMeteocatC8 schedGapFirst none ⟨[], []⟩
      ["2022-01-01"]).err = some .valueError ∧
    (meteocatCompose fetchMeteocatC8 schedGapFirst none ⟨[], []⟩
      ["2022-01-01"]).store.rows = [] := by
  constructor
  · decide
  · decide

/-- C8, amended.  Only readings with `estat == 'V'` contribute and
sub-hour readings within an hour are averaged — temperature's hour 14
merges its validated readings 10 and 20 to 15, excluding the unvalidated
100 — and when, in the realised completion order, the first-appended
result covers every hour (here: the temperature worker finishes first),
a variable with no validated reading at hour 14 joins as null: the
merged hour-14 row has `T` set and `RH` null and the date yields its
full 24 rows without failing.  If instead a result with an hour gap is
appended first, the whole call fails (see the counterexample): the
no-fail outcome holds per schedule, not unconditionally. -/
theorem C8_validated_mean_and_missing_null :
    (meteocatCompose fetchMeteocatC8 schedSpawn none ⟨[], []⟩
      ["2022-01-01"]).err = none ∧
    (meteocatCompose fetchMeteocatC8 schedSpawn none ⟨[], []⟩
      ["2022-01-01"]).store.rows.length = 24 ∧
    ((meteocatCompose fetchMeteocatC8 schedSpawn none ⟨[], []⟩
        ["2022-01-01"]).store.rows.filter (fun r => r.hour == 14)).map
      (fun r => (lookupCol "T" r.vals, lookupCol "RH" r.vals))
      = [(some (some ⟨15, 1⟩), some none)] := by
  refine ⟨?_, ?_, ?_⟩ <;> decide

/-- Row-by-row round trip of the persisted form: parsing the printed
timestamps back yields the original rows. -/
theorem loadCsv_saveStore_rows {rows : List Row}
    (h : ∀ r ∈ rows, r.time.bounded) :
    (rows.map (fun r =>
      (⟨printDT r.time, r.date, r.hour, r.vals⟩ : CsvRow))).mapM
      (fun c => (parseDT c.time).map (fun t =>
        ({ time := t, date := c.date, hour := c.hour,
           vals := c.vals } : Row))) = some rows := by
  induction rows with
  | nil => rfl
  | cons r rs ih =>
    have hr : r.time.bounded := h r (List.mem_cons_self r rs)
    have hrs : ∀ q ∈ rs, q.time.bounded :=
      fun q hq => h q (List.mem_cons_of_mem r hq)
    simp only [List.map_cons, List.mapM_cons, parseDT_printDT hr, ih hrs,
      Option.map_some', Option.pure_def, Option.bind_some]
    rfl

/-! Claim C9. -/

/-- C9, counterexample.  The claim quantifies over every store state,
but `load()` runs `pd.to_datetime` on the whole `time` column and then
`.dt.tz_convert` (line 277/614): a store spanning both DST regimes — an
ordinary state, e.g. one January and one July AEMET date — saves mixed
`+01:00`/`+02:00` offset strings, for which `to_datetime` yields an
object-dtype column (pandas >= 2.1) and the `.dt` accessor raises, so
`load()` crashes instead of reproducing the saved rows. -/
theorem C9_mixed_offsets_break_load :
    (storeMixed.rows.map (fun r => r.time.offsetH)).dedup = [1, 2] ∧
    loadCsv (saveStore storeMixed) = none ∧
    loadCsv (saveStore storeMixed)
      ≠ some ⟨storeMixed.rows, storeDates storeMixed.rows⟩ := by
  refine ⟨?_, ?_, ?_⟩ <;> decide

/-- C9, amended.  Persistence round-trips for stores whose timestamps
all share one UTC offset: `save()` writes the row set with timestamps
printed as `str(Timestamp)` and the remaining cells as-is, and `load()`
into a fresh store re-parses the column and recomputes `_dates`,
reproducing a row set identical in timestamps and values (for the
four-digit-year/two-digit-field timestamps the program constructs).  A
store with mixed offsets — spanning a DST transition — makes `load()`
raise instead (see the counterexample). -/
theorem C9_save_load_round_trip (s : Store)
    (h : ∀ r ∈ s.rows, r.time.bounded)
    (hu : (s.rows.map (fun r => r.time.offsetH)).dedup.length ≤ 1) :
    loadCsv (saveStore s) = some ⟨s.rows, storeDates s.rows⟩ := by
  unfold loadCsv saveStore
  rw [loadCsv_saveStore_rows h]
  dsimp only
  rw [if_pos hu]

/-- C9, witness at a concrete store. -/
theorem C9_save_load_round_trip_witness :
    (∀ r ∈ storeHours.rows, r.time.bounded) ∧
    (storeHours.rows.map (fun r => r.time.offsetH)).dedup.length ≤ 1 ∧
    loadCsv (saveStore storeHours)
      = some ⟨storeHours.rows, storeDates storeHours.rows⟩ :=
  ⟨by decide, by decide,
    C9_save_load_round_trip storeHours (by decide) (by decide)⟩

/-! Claim C10. -/

/-- C10, confirmed.  An hour bound equal to 0 is treated as absent: each
bound is tested with Python truthiness (`if startHour:` / `if endHour:`)
before its filter is applied, and `0` is falsy, so
`get_daily_weather(dates, startHour=0, endHour=0)` skips both hour
filters and returns exactly what the call with no hour bounds returns —
all 24 hours of the selected dates. -/
theorem C10_zero_hour_bounds_ignored
    (fetch : String → Nat → Option (List Lecture))
    (sched : String → List Nat) (disk : Option (List CsvRow))
    (store : Store) (dates0 : List String) (today : String) :
    getDailyWeather fetch sched disk store dates0 today (some 0) (some 0)
      = getDailyWeather fetch sched disk store dates0 today none none := by
  rfl
